import Mathlib

/-!
Verification of the drumanalytics batch scripts.

This file gives a shallow embedding of the two batch jobs of the
repository:

* `fetch_s3_results.py` (the Downloader): creates a local output
  directory, lists the objects of an S3 bucket under a fixed prefix,
  and downloads every non-folder object to a local file named after
  the basename of its key.

* `load_analysis_to_pandas.py` (the Loader): lists the same prefix,
  fetches every object whose key ends in `.json`, parses its body as a
  JSON record, injects the fields `s3_key` and `analysis_timestamp`,
  accumulates the records, builds a pandas DataFrame from them and
  writes it to `all_drum_analysis.csv`.

The S3 listing is modelled as `Option (List S3Object)`: `none` stands
for a `list_objects_v2` response without a `Contents` field, `some objs`
for a response whose `Contents` lists `objs` in order.  Object bodies
are modelled by a function from key to parsed JSON record (the scripts
only ever index the parsed body as a dict, so a body is an association
list of fields).  Each run is recorded as a trace of external effects
plus the observable outcome (messages, rows, exit code).
-/

/-- A JSON value as produced by `json.loads`: text, number, boolean,
null, sequence or nested mapping. -/
inductive JValue where
  | str (s : String)
  | num (n : Int)
  | bool (b : Bool)
  | null
  | arr (xs : List JValue)
  | obj (fields : List (String × JValue))

/-- A parsed top-level JSON object body (a Python dict): an ordered
association list of fields.  `json.loads` yields at most one binding
per field name. -/
abbrev Record := List (String × JValue)

/-- Python `d[k]` lookup on a dict modelled as an association list:
the value of the first binding of `k`, if any. -/
def getField : Record → String → Option JValue
  | [], _ => none
  | (k', v) :: rest, k => if k' = k then some v else getField rest k

/-- Python `d[k] = v` on a dict modelled as an association list: if a
binding for `k` exists, replace its value in place; otherwise append a
new binding at the end (dict insertion order). -/
def setField : Record → String → JValue → Record
  | [], k, v => [(k, v)]
  | (k', v') :: rest, k, v =>
      if k' = k then (k, v) :: rest
      else (k', v') :: setField rest k v

/-- One entry of the S3 `Contents` listing: its `Key` and its
`LastModified` timestamp (kept as the text the API returns). -/
structure S3Object where
  key : String
  lastModified : String
deriving DecidableEq

/-- Python `str.endswith(suf)`: `suf` is a suffix of `s`. -/
def strEndsWith (s suf : String) : Bool := suf.data.isSuffixOf s.data

/-- `os.path.basename`: the final path segment of `p`, i.e. the
longest suffix of `p` containing no `/`. -/
def basename (p : String) : String :=
  String.mk ((p.data.reverse.takeWhile (fun c => c != '/')).reverse)

/-- An external effect performed by one of the scripts. -/
inductive Effect where
  | mkdir (path : String)
  | listObjects (bucket pre : String)
  | getObject (bucket key : String)
  | downloadFile (bucket key localPath : String)
  | writeCsv (path : String)
deriving DecidableEq

/-- Does the effect touch the local filesystem?  `mkdir`,
`download_file` (which writes a local file) and `to_csv` do;
the pure S3 calls do not. -/
def Effect.touchesLocalFS : Effect → Bool
  | .mkdir _ => true
  | .downloadFile _ _ _ => true
  | .writeCsv _ => true
  | _ => false

/-- `BUCKET_NAME` of `fetch_s3_results.py`. -/
def BUCKET_NAME : String := "drumanalytics-uploads-nsteele"

/-- `S3_PREFIX` of `fetch_s3_results.py`. -/
def S3_PREFIX_VAL : String := "results/"

/-- `LOCAL_OUTPUT_DIR` of `fetch_s3_results.py`. -/
def LOCAL_OUTPUT_DIR : String := "downloaded_results"

/-- `S3_BUCKET` of `load_analysis_to_pandas.py`. -/
def S3_BUCKET : String := "drumanalytics-uploads-nsteele"

/-- `RESULTS_PREFIX` of `load_analysis_to_pandas.py`. -/
def RESULTS_PREFIX_VAL : String := "results/"

/-- The fixed output filename of the Loader (`df.to_csv(...)`). -/
def OUTPUT_CSV : String := "all_drum_analysis.csv"

/-- `os.path.join(LOCAL_OUTPUT_DIR, os.path.basename(key))`: the
basename holds no `/`, so the join inserts a single separator. -/
def localPath (key : String) : String :=
  LOCAL_OUTPUT_DIR ++ "/" ++ basename key

/-- The Downloader loop `for obj in response["Contents"]`: keys
ending in `/` are skipped (`continue`); every other key is passed to
`s3.download_file(BUCKET_NAME, key, local_filename)`. -/
def downloaderLoop : List S3Object → List Effect
  | [] => []
  | o :: rest =>
      if strEndsWith o.key "/" then downloaderLoop rest
      else Effect.downloadFile BUCKET_NAME o.key (localPath o.key) :: downloaderLoop rest

/-- The observable outcome of one run of `fetch_s3_results.py`. -/
structure DownloaderRun where
  printedNoFiles : Bool
  effects : List Effect
  exitCode : Nat
deriving DecidableEq

/-- One run of `fetch_s3_results.py` on a listing response.
`os.makedirs` runs before `list_objects_v2`; if `"Contents" not in
response` the script prints the message and calls `exit()` (exit
status 0); otherwise it runs the download loop. -/
def downloaderRun (listing : Option (List S3Object)) : DownloaderRun :=
  match listing with
  | none =>
      { printedNoFiles := true
        effects := [Effect.mkdir LOCAL_OUTPUT_DIR,
                    Effect.listObjects BUCKET_NAME S3_PREFIX_VAL]
        exitCode := 0 }
  | some objs =>
      { printedNoFiles := false
        effects := Effect.mkdir LOCAL_OUTPUT_DIR ::
                   Effect.listObjects BUCKET_NAME S3_PREFIX_VAL ::
                   downloaderLoop objs
        exitCode := 0 }

/-- The two dict assignments performed on each parsed body:
`analysis_data["s3_key"] = key` and then
`analysis_data["analysis_timestamp"] = obj["LastModified"]`. -/
def injectFields (body : Record) (key lastModified : String) : Record :=
  setField (setField body "s3_key" (JValue.str key))
    "analysis_timestamp" (JValue.str lastModified)

/-- The Loader loop `for obj in response["Contents"]`: keys not
ending in `.json` are skipped (`continue`); for every other key the
body is fetched with `s3.get_object`, parsed, the two fields are
injected, and the record is appended to `analysis_rows`.  Returns the
effect trace of the loop and the accumulated rows. -/
def loaderLoop (fetch : String → Record) :
    List S3Object → List Effect × List Record
  | [] => ([], [])
  | o :: rest =>
      let res := loaderLoop fetch rest
      if strEndsWith o.key ".json" then
        (Effect.getObject S3_BUCKET o.key :: res.1,
         injectFields (fetch o.key) o.key o.lastModified :: res.2)
      else res

/-- The observable outcome of one run of `load_analysis_to_pandas.py`. -/
structure LoaderRun where
  printedNoFiles : Bool
  effects : List Effect
  rows : List Record
  csvWritten : Bool
  exitCode : Nat

/-- One run of `load_analysis_to_pandas.py` on a listing response and
a body-of-key map.  If `"Contents" not in response` the script prints
the message and calls `exit()` (exit status 0) without building the
DataFrame; otherwise it runs the loop, builds `pd.DataFrame` from the
rows and always writes `all_drum_analysis.csv`. -/
def loaderRun (listing : Option (List S3Object)) (fetch : String → Record) :
    LoaderRun :=
  match listing with
  | none =>
      { printedNoFiles := true
        effects := [Effect.listObjects S3_BUCKET RESULTS_PREFIX_VAL]
        rows := []
        csvWritten := false
        exitCode := 0 }
  | some objs =>
      let res := loaderLoop fetch objs
      { printedNoFiles := false
        effects := Effect.listObjects S3_BUCKET RESULTS_PREFIX_VAL ::
                   res.1 ++ [Effect.writeCsv OUTPUT_CSV]
        rows := res.2
        csvWritten := true
        exitCode := 0 }

/-- Keep the first occurrence of every element, in order. -/
def dedupKeepFirst : List String → List String
  | [] => []
  | x :: xs => x :: (dedupKeepFirst xs).filter (fun y => y != x)

/-- The column list of `pd.DataFrame(rows)`: the union of the field
names of all records, in order of first appearance. -/
def dfColumns (rows : List Record) : List String :=
  dedupKeepFirst (List.flatten (rows.map (fun r => r.map Prod.fst)))

/-- The cell of a DataFrame row at a column: the value of the record there,
or missing (`NaN`) when the record lacks the field. -/
def dfCell (row : Record) (c : String) : Option JValue := getField row c

/-- The `(local path, source key)` pairs of the local file writes in
an effect trace, in order. -/
def writesOf (es : List Effect) : List (String × String) :=
  es.filterMap fun e =>
    match e with
    | Effect.downloadFile _ k p => some (p, k)
    | _ => none

/-- The local filesystem contents after applying a list of writes in
order to an initial state, where a write stores the bytes of its
source object (per `getBytes`) at its path. -/
def finalFS (getBytes : String → String) :
    List (String × String) → (String → Option String) → String → Option String
  | [], fs => fs
  | (p, k) :: rest, fs =>
      finalFS getBytes rest (fun q => if q = p then some (getBytes k) else fs q)

/-! ### Basic lemmas about the embedding -/

theorem getField_setField_self (r : Record) (k : String) (v : JValue) :
    getField (setField r k v) k = some v := by
  induction r with
  | nil => simp [setField, getField]
  | cons p rest ih =>
    obtain ⟨k', v'⟩ := p
    by_cases h : k' = k
    · simp [setField, h, getField]
    · simp [setField, h, getField, ih]

theorem getField_setField_ne (r : Record) (k k' : String) (v : JValue)
    (h : k' ≠ k) : getField (setField r k v) k' = getField r k' := by
  induction r with
  | nil => simp [setField, getField, Ne.symm h]
  | cons p rest ih =>
    obtain ⟨k'', v'⟩ := p
    by_cases hk : k'' = k
    · subst hk
      simp [setField, getField, Ne.symm h]
    · simp [setField, hk, getField, ih]

theorem getField_eq_none_of_not_mem (r : Record) (c : String)
    (h : c ∉ r.map Prod.fst) : getField r c = none := by
  induction r with
  | nil => rfl
  | cons p rest ih =>
    obtain ⟨k, v⟩ := p
    simp only [List.map_cons, List.mem_cons, not_or] at h
    simp [getField, Ne.symm h.1, ih h.2]

theorem getField_injectFields_s3_key (body : Record) (key lastModified : String) :
    getField (injectFields body key lastModified) "s3_key" = some (JValue.str key) := by
  unfold injectFields
  rw [getField_setField_ne _ _ _ _ (by decide)]
  exact getField_setField_self _ _ _

theorem getField_injectFields_timestamp (body : Record) (key lastModified : String) :
    getField (injectFields body key lastModified) "analysis_timestamp"
      = some (JValue.str lastModified) :=
  getField_setField_self _ _ _

theorem loaderLoop_eq (fetch : String → Record) (objs : List S3Object) :
    loaderLoop fetch objs =
      ((objs.filter (fun o => strEndsWith o.key ".json")).map
          (fun o => Effect.getObject S3_BUCKET o.key),
       (objs.filter (fun o => strEndsWith o.key ".json")).map
          (fun o => injectFields (fetch o.key) o.key o.lastModified)) := by
  induction objs with
  | nil => rfl
  | cons o rest ih =>
    cases h : strEndsWith o.key ".json" <;>
      simp [loaderLoop, h, ih, List.filter_cons]

theorem downloaderLoop_eq (objs : List S3Object) :
    downloaderLoop objs =
      (objs.filter (fun o => !strEndsWith o.key "/")).map
        (fun o => Effect.downloadFile BUCKET_NAME o.key (localPath o.key)) := by
  induction objs with
  | nil => rfl
  | cons o rest ih =>
    cases h : strEndsWith o.key "/" <;>
      simp [downloaderLoop, h, ih, List.filter_cons]

theorem mem_dedupKeepFirst (l : List String) (c : String) :
    c ∈ dedupKeepFirst l ↔ c ∈ l := by
  induction l with
  | nil => simp [dedupKeepFirst]
  | cons x xs ih =>
    by_cases h : c = x
    · simp [dedupKeepFirst, h]
    · simp [dedupKeepFirst, List.mem_filter, h, ih, bne_iff_ne]

theorem mem_dfColumns (rows : List Record) (c : String) :
    c ∈ dfColumns rows ↔ ∃ r ∈ rows, c ∈ r.map Prod.fst := by
  unfold dfColumns
  rw [mem_dedupKeepFirst, List.mem_flatten]
  constructor
  · rintro ⟨s, hs, hc⟩
    obtain ⟨r, hr, rfl⟩ := List.mem_map.mp hs
    exact ⟨r, hr, hc⟩
  · rintro ⟨r, hr, hc⟩
    exact ⟨r.map Prod.fst, List.mem_map.mpr ⟨r, hr, rfl⟩, hc⟩

theorem endsWith_json_ne_empty (s : String) (h : strEndsWith s ".json" = true) :
    s ≠ "" := by
  intro hs
  subst hs
  exact absurd h (by decide)

theorem not_endsWith_json_of_endsWith_slash (s : String)
    (h : strEndsWith s "/" = true) : strEndsWith s ".json" = false := by
  by_contra hj
  rw [Bool.not_eq_false] at hj
  unfold strEndsWith at h hj
  rw [List.isSuffixOf_iff_suffix] at h hj
  obtain ⟨t, ht⟩ := h
  obtain ⟨u, hu⟩ := hj
  have h1 : s.data.getLast? = some '/' := by
    rw [← ht]
    exact List.getLast?_concat t
  have h2 : s.data.getLast? = some 'n' := by
    rw [← hu]
    show (u ++ (['.', 'j', 's', 'o'] ++ ['n'])).getLast? = some 'n'
    rw [← List.append_assoc]
    exact List.getLast?_concat _
  rw [h1] at h2
  exact absurd h2 (by decide)

/-! ### Claim theorems -/

/-- Claim C1 is refuted: with a listing containing only the folder
marker `results/`, the response has a `Contents` field, so the Loader
does not print the "no analysis files found" message and still writes
the output CSV, and the Downloader does not print the message either —
contradicting the claim that both jobs print the message and write
nothing. -/
theorem C1_folder_only_counterexample :
    (loaderRun (some [⟨"results/", "2025-01-01T00:00:00Z"⟩])
        (fun _ => [])).printedNoFiles = false ∧
    (loaderRun (some [⟨"results/", "2025-01-01T00:00:00Z"⟩])
        (fun _ => [])).csvWritten = true ∧
    Effect.writeCsv OUTPUT_CSV ∈
      (loaderRun (some [⟨"results/", "2025-01-01T00:00:00Z"⟩])
        (fun _ => [])).effects ∧
    (downloaderRun (some [⟨"results/", "2025-01-01T00:00:00Z"⟩])).printedNoFiles
      = false := by
  refine ⟨rfl, rfl, ?_, rfl⟩
  decide

/-- Claim C1 amended: when the listing contains only folder-marker keys
(every key ends in `/`), neither job prints the "no analysis files
found" message (it is printed only when the listing has no `Contents`
field); the Downloader writes no local files, but the Loader still
writes the output CSV, with an empty record sequence. -/
theorem C1_folder_only_amended (objs : List S3Object) (fetch : String → Record)
    (hall : ∀ o ∈ objs, strEndsWith o.key "/" = true) :
    (loaderRun (some objs) fetch).printedNoFiles = false ∧
    (loaderRun (some objs) fetch).rows = [] ∧
    (loaderRun (some objs) fetch).csvWritten = true ∧
    (downloaderRun (some objs)).printedNoFiles = false ∧
    writesOf (downloaderRun (some objs)).effects = [] := by
  have hfilter : objs.filter (fun o => strEndsWith o.key ".json") = [] := by
    rw [List.filter_eq_nil_iff]
    intro o ho
    simp [not_endsWith_json_of_endsWith_slash o.key (hall o ho)]
  have hfilter2 : objs.filter (fun o => !strEndsWith o.key "/") = [] := by
    rw [List.filter_eq_nil_iff]
    intro o ho
    simp [hall o ho]
  refine ⟨rfl, ?_, rfl, rfl, ?_⟩
  · show (loaderLoop fetch objs).2 = []
    rw [loaderLoop_eq, hfilter]
    rfl
  · show writesOf (Effect.mkdir LOCAL_OUTPUT_DIR ::
        Effect.listObjects BUCKET_NAME S3_PREFIX_VAL :: downloaderLoop objs) = []
    rw [downloaderLoop_eq, hfilter2]
    rfl

/-- Claim C1 amended, witnessed at the one-folder-marker listing. -/
theorem C1_folder_only_amended_witness :
    (∀ o ∈ [(⟨"results/", "2025-01-01T00:00:00Z"⟩ : S3Object)],
        strEndsWith o.key "/" = true) ∧
    ((loaderRun (some [⟨"results/", "2025-01-01T00:00:00Z"⟩])
        (fun _ => [])).rows = [] ∧
     writesOf (downloaderRun
        (some [⟨"results/", "2025-01-01T00:00:00Z"⟩])).effects = []) :=
  ⟨by decide,
   (C1_folder_only_amended [⟨"results/", "2025-01-01T00:00:00Z"⟩]
      (fun _ => []) (by decide)).2.1,
   (C1_folder_only_amended [⟨"results/", "2025-01-01T00:00:00Z"⟩]
      (fun _ => []) (by decide)).2.2.2.2⟩

/-- Claim C2: on a listing response with no `Contents` field, both jobs
print their "no analysis files found" message, write no local file
(the Downloader performs no download, the Loader writes no CSV and
accumulates no rows), and exit with status 0. -/
theorem C2_empty_listing_clean_stop (fetch : String → Record) :
    (downloaderRun none).printedNoFiles = true ∧
    (downloaderRun none).exitCode = 0 ∧
    writesOf (downloaderRun none).effects = [] ∧
    (loaderRun none fetch).printedNoFiles = true ∧
    (loaderRun none fetch).csvWritten = false ∧
    (loaderRun none fetch).rows = [] ∧
    (loaderRun none fetch).exitCode = 0 :=
  ⟨rfl, rfl, rfl, rfl, rfl, rfl, rfl⟩

/-- Claim C10: the first effect of the Downloader is creating the local output
directory and its second is the listing call, so the directory exists
after every run, including one with an empty listing; and in the
empty-listing case the directory creation is the only effect touching
the local filesystem. -/
theorem C10_mkdir_before_listing (listing : Option (List S3Object)) :
    (downloaderRun listing).effects.take 2
        = [Effect.mkdir LOCAL_OUTPUT_DIR,
           Effect.listObjects BUCKET_NAME S3_PREFIX_VAL] ∧
    Effect.mkdir LOCAL_OUTPUT_DIR ∈ (downloaderRun listing).effects ∧
    (downloaderRun none).effects.filter Effect.touchesLocalFS
        = [Effect.mkdir LOCAL_OUTPUT_DIR] := by
  refine ⟨?_, ?_, by decide⟩ <;> cases listing <;> simp [downloaderRun]

/-- Claim C3: for every qualifying object, the injected fields overwrite any
same-named field of the parsed body: row by row (in listing order over
the `.json`-suffixed entries), `s3_key` is exactly the key of the entry and
`analysis_timestamp` exactly its last-modified timestamp, and both are
non-empty — for an arbitrary body map `fetch`, hence regardless of any
`s3_key` or `analysis_timestamp` field in the source JSON. -/
theorem C3_injected_fields_overwrite (objs : List S3Object)
    (fetch : String → Record)
    (hts : ∀ o ∈ objs, o.lastModified ≠ "") :
    List.Forall₂
      (fun row o =>
        getField row "s3_key" = some (JValue.str o.key) ∧
        getField row "analysis_timestamp" = some (JValue.str o.lastModified) ∧
        o.key ≠ "" ∧ o.lastModified ≠ "")
      (loaderRun (some objs) fetch).rows
      (objs.filter (fun o => strEndsWith o.key ".json")) := by
  show List.Forall₂ _ (loaderLoop fetch objs).2 _
  rw [loaderLoop_eq]
  rw [List.forall₂_map_left_iff, List.forall₂_same]
  intro o ho
  have hmem := List.mem_filter.mp ho
  exact ⟨getField_injectFields_s3_key _ _ _,
         getField_injectFields_timestamp _ _ _,
         endsWith_json_ne_empty o.key hmem.2, hts o hmem.1⟩

/-- Claim C3, witnessed at a listing of one `.json` object whose body already
defines an `s3_key` field. -/
theorem C3_injected_fields_overwrite_witness :
    (∀ o ∈ [(⟨"results/a.json", "2025-01-01T00:00:00Z"⟩ : S3Object)],
        o.lastModified ≠ "") ∧
    List.Forall₂
      (fun row o =>
        getField row "s3_key" = some (JValue.str o.key) ∧
        getField row "analysis_timestamp" = some (JValue.str o.lastModified) ∧
        o.key ≠ "" ∧ o.lastModified ≠ "")
      (loaderRun (some [⟨"results/a.json", "2025-01-01T00:00:00Z"⟩])
        (fun _ => [("s3_key", JValue.str "stale"), ("bpm", JValue.num 120)])).rows
      ([(⟨"results/a.json", "2025-01-01T00:00:00Z"⟩ : S3Object)].filter
        (fun o => strEndsWith o.key ".json")) :=
  ⟨by decide,
   C3_injected_fields_overwrite _ _ (by decide)⟩

/-- Claim C4: when every listed key ends in `.json` and the keys are
distinct, the rows of the Loader are in one-to-one correspondence with the
listed objects: there are exactly as many rows as objects, the i-th
row carries as `s3_key` the key of the i-th object, and the `s3_key` values are
pairwise distinct. -/
theorem C4_rows_one_to_one (objs : List S3Object) (fetch : String → Record)
    (hall : ∀ o ∈ objs, strEndsWith o.key ".json" = true)
    (hnodup : (objs.map S3Object.key).Nodup) :
    (loaderRun (some objs) fetch).rows.length = objs.length ∧
    (loaderRun (some objs) fetch).rows.map (fun r => getField r "s3_key")
        = objs.map (fun o => some (JValue.str o.key)) ∧
    ((loaderRun (some objs) fetch).rows.map
        (fun r => getField r "s3_key")).Nodup := by
  have hfilter : objs.filter (fun o => strEndsWith o.key ".json") = objs :=
    List.filter_eq_self.mpr hall
  have hrows : (loaderRun (some objs) fetch).rows
      = objs.map (fun o => injectFields (fetch o.key) o.key o.lastModified) := by
    show (loaderLoop fetch objs).2 = _
    rw [loaderLoop_eq, hfilter]
  have hmap : (loaderRun (some objs) fetch).rows.map (fun r => getField r "s3_key")
      = objs.map (fun o => some (JValue.str o.key)) := by
    rw [hrows, List.map_map]
    exact List.map_congr_left (fun o _ => getField_injectFields_s3_key _ _ _)
  refine ⟨by rw [hrows, List.length_map], hmap, ?_⟩
  rw [hmap]
  have hsplit : objs.map (fun o => some (JValue.str o.key))
      = (objs.map S3Object.key).map (fun k => some (JValue.str k)) := by
    rw [List.map_map]
    rfl
  rw [hsplit]
  refine hnodup.map ?_
  intro a b hab
  simpa using hab

/-- Claim C4, witnessed at a two-object listing of distinct `.json` keys. -/
theorem C4_rows_one_to_one_witness :
    (∀ o ∈ [(⟨"results/a.json", "t1"⟩ : S3Object), ⟨"results/b.json", "t2"⟩],
        strEndsWith o.key ".json" = true) ∧
    ([(⟨"results/a.json", "t1"⟩ : S3Object), ⟨"results/b.json", "t2"⟩].map
        S3Object.key).Nodup ∧
    (loaderRun (some [⟨"results/a.json", "t1"⟩, ⟨"results/b.json", "t2"⟩])
        (fun _ => [])).rows.length = 2 :=
  ⟨by decide, by decide,
   (C4_rows_one_to_one [⟨"results/a.json", "t1"⟩, ⟨"results/b.json", "t2"⟩]
      (fun _ => []) (by decide) (by decide)).1⟩

/-- Claim C5: an object whose key does not end in `.json` is never fetched
(`get_object` is not called on its key) and no row of the result table
carries its key as `s3_key`. -/
theorem C5_non_json_excluded (objs : List S3Object) (fetch : String → Record)
    (o : S3Object) (ho : o ∈ objs) (hk : strEndsWith o.key ".json" = false) :
    Effect.getObject S3_BUCKET o.key ∉ (loaderRun (some objs) fetch).effects ∧
    ∀ row ∈ (loaderRun (some objs) fetch).rows,
      getField row "s3_key" ≠ some (JValue.str o.key) := by
  have heff : (loaderRun (some objs) fetch).effects
      = Effect.listObjects S3_BUCKET RESULTS_PREFIX_VAL ::
        (objs.filter (fun o => strEndsWith o.key ".json")).map
          (fun o => Effect.getObject S3_BUCKET o.key)
        ++ [Effect.writeCsv OUTPUT_CSV] := by
    show Effect.listObjects S3_BUCKET RESULTS_PREFIX_VAL ::
        (loaderLoop fetch objs).1 ++ [Effect.writeCsv OUTPUT_CSV] = _
    rw [loaderLoop_eq]
  have hrows : (loaderRun (some objs) fetch).rows
      = (objs.filter (fun o => strEndsWith o.key ".json")).map
          (fun o => injectFields (fetch o.key) o.key o.lastModified) := by
    show (loaderLoop fetch objs).2 = _
    rw [loaderLoop_eq]
  constructor
  · rw [heff]
    intro hmem
    rcases List.mem_cons.mp hmem with h | h
    · exact Effect.noConfusion h
    rcases List.mem_append.mp h with h | h
    · obtain ⟨o', ho', heq⟩ := List.mem_map.mp h
      have hkey : o'.key = o.key := by
        injection heq with h1 h2
      have hj := (List.mem_filter.mp ho').2
      rw [hkey] at hj
      rw [hj] at hk
      exact Bool.noConfusion hk
    · rw [List.mem_singleton] at h
      exact Effect.noConfusion h
  · intro row hrow
    rw [hrows] at hrow
    obtain ⟨o', ho', rfl⟩ := List.mem_map.mp hrow
    rw [getField_injectFields_s3_key]
    intro hcontra
    have hkey : o'.key = o.key := by
      have h1 := Option.some.inj hcontra
      injection h1
    have hj := (List.mem_filter.mp ho').2
    rw [hkey] at hj
    rw [hj] at hk
    exact Bool.noConfusion hk

/-- Claim C5, witnessed at a listing holding a `.json` file and a `.txt`
file. -/
theorem C5_non_json_excluded_witness :
    ((⟨"results/readme.txt", "t2"⟩ : S3Object)
        ∈ [(⟨"results/a.json", "t1"⟩ : S3Object), ⟨"results/readme.txt", "t2"⟩]) ∧
    strEndsWith "results/readme.txt" ".json" = false ∧
    Effect.getObject S3_BUCKET "results/readme.txt" ∉
      (loaderRun (some [⟨"results/a.json", "t1"⟩, ⟨"results/readme.txt", "t2"⟩])
        (fun _ => [])).effects :=
  ⟨by decide, by decide,
   (C5_non_json_excluded [⟨"results/a.json", "t1"⟩, ⟨"results/readme.txt", "t2"⟩]
      (fun _ => []) ⟨"results/readme.txt", "t2"⟩ (by decide) (by decide)).1⟩

/-- Claim C6: the Downloader never calls `download_file` on a key ending in
`/` (no fetch, no local write for it), and calls it on every other
listed key — including non-JSON keys — writing to the basename of the key
inside the output directory. -/
theorem C6_folder_markers_skipped (objs : List S3Object) (o : S3Object)
    (ho : o ∈ objs) :
    (strEndsWith o.key "/" = true →
      ∀ p, Effect.downloadFile BUCKET_NAME o.key p
          ∉ (downloaderRun (some objs)).effects) ∧
    (strEndsWith o.key "/" = false →
      Effect.downloadFile BUCKET_NAME o.key (localPath o.key)
          ∈ (downloaderRun (some objs)).effects) := by
  have heff : (downloaderRun (some objs)).effects
      = Effect.mkdir LOCAL_OUTPUT_DIR ::
        Effect.listObjects BUCKET_NAME S3_PREFIX_VAL ::
        (objs.filter (fun o => !strEndsWith o.key "/")).map
          (fun o => Effect.downloadFile BUCKET_NAME o.key (localPath o.key)) := by
    show Effect.mkdir LOCAL_OUTPUT_DIR ::
        Effect.listObjects BUCKET_NAME S3_PREFIX_VAL :: downloaderLoop objs = _
    rw [downloaderLoop_eq]
  constructor
  · intro hslash p hmem
    rw [heff] at hmem
    rcases List.mem_cons.mp hmem with h | h
    · exact Effect.noConfusion h
    rcases List.mem_cons.mp h with h | h
    · exact Effect.noConfusion h
    obtain ⟨o', ho', heq⟩ := List.mem_map.mp h
    have hkey : o'.key = o.key := by
      injection heq with h1 h2 h3
    have hns := (List.mem_filter.mp ho').2
    rw [hkey, hslash] at hns
    exact Bool.noConfusion hns
  · intro hslash
    rw [heff]
    refine List.mem_cons_of_mem _ (List.mem_cons_of_mem _ ?_)
    exact List.mem_map.mpr
      ⟨o, List.mem_filter.mpr ⟨ho, by rw [hslash]; rfl⟩, rfl⟩

/-- Claim C6, witnessed at a listing holding a folder marker and a file: the
file is downloaded to its basename, the folder marker is not touched. -/
theorem C6_folder_markers_skipped_witness :
    ((⟨"results/a.json", "t1"⟩ : S3Object)
        ∈ [(⟨"results/", "t0"⟩ : S3Object), ⟨"results/a.json", "t1"⟩]) ∧
    strEndsWith "results/a.json" "/" = false ∧
    Effect.downloadFile BUCKET_NAME "results/a.json" (localPath "results/a.json")
      ∈ (downloaderRun
          (some [⟨"results/", "t0"⟩, ⟨"results/a.json", "t1"⟩])).effects ∧
    Effect.downloadFile BUCKET_NAME "results/" (localPath "results/")
      ∉ (downloaderRun
          (some [⟨"results/", "t0"⟩, ⟨"results/a.json", "t1"⟩])).effects :=
  ⟨by decide, by decide,
   (C6_folder_markers_skipped [⟨"results/", "t0"⟩, ⟨"results/a.json", "t1"⟩]
      ⟨"results/a.json", "t1"⟩ (by decide)).2 (by decide),
   (C6_folder_markers_skipped [⟨"results/", "t0"⟩, ⟨"results/a.json", "t1"⟩]
      ⟨"results/", "t0"⟩ (by decide)).1 (by decide) (localPath "results/")⟩

/-- The listing of the worked scenario of the spec: `results/a.json`,
`results/b.json` and the folder marker `results/`. -/
def scenarioListing : Option (List S3Object) :=
  some [⟨"results/a.json", "2025-01-01T00:00:00Z"⟩,
        ⟨"results/b.json", "2025-01-02T00:00:00Z"⟩,
        ⟨"results/", "2025-01-01T00:00:00Z"⟩]

/-- The object bodies of the worked scenario of the spec. -/
def scenarioFetch : String → Record := fun k =>
  if k = "results/a.json" then [("bpm", JValue.num 120)]
  else if k = "results/b.json" then
    [("bpm", JValue.num 95), ("genre", JValue.str "rock")]
  else []

/-- Claim C7: the column set of the DataFrame is the union of the field names of
all accumulated records, and a record lacking a column yields a
missing cell; on the worked scenario the table has 2 rows, column set
`{bpm, genre, s3_key, analysis_timestamp}`, the first row belongs to
`a.json` and its `genre` cell is missing. -/
theorem C7_columns_union_missing_cells :
    (∀ (rows : List Record) (c : String),
        c ∈ dfColumns rows ↔ ∃ r ∈ rows, c ∈ r.map Prod.fst) ∧
    (∀ (rows : List Record) (r : Record) (c : String),
        r ∈ rows → c ∉ r.map Prod.fst → dfCell r c = none) ∧
    ((loaderRun scenarioListing scenarioFetch).rows.length = 2 ∧
     List.Perm (dfColumns (loaderRun scenarioListing scenarioFetch).rows)
       ["bpm", "genre", "s3_key", "analysis_timestamp"] ∧
     getField ((loaderRun scenarioListing scenarioFetch).rows.getD 0 []) "s3_key"
        = some (JValue.str "results/a.json") ∧
     dfCell ((loaderRun scenarioListing scenarioFetch).rows.getD 0 []) "genre"
        = none) := by
  refine ⟨mem_dfColumns, fun rows r c _ hc => getField_eq_none_of_not_mem r c hc,
          ?_, ?_, rfl, rfl⟩
  · rfl
  · have hcols : dfColumns (loaderRun scenarioListing scenarioFetch).rows
        = ["bpm", "s3_key", "analysis_timestamp", "genre"] := rfl
    rw [hcols]
    decide

/-- Claim C7, witnessed: a record without a `genre` field yields a missing
`genre` cell in its row. -/
theorem C7_columns_union_missing_cells_witness :
    ([("bpm", JValue.num 120)] ∈ [[("bpm", JValue.num 120)]]) ∧
    ("genre" ∉ [("bpm", JValue.num 120)].map Prod.fst) ∧
    dfCell [("bpm", JValue.num 120)] "genre" = none :=
  ⟨List.mem_singleton.mpr rfl, by decide,
   C7_columns_union_missing_cells.2.1 [[("bpm", JValue.num 120)]]
     [("bpm", JValue.num 120)] "genre" (List.mem_singleton.mpr rfl) (by decide)⟩

/-- Claim C8: the Loader pipeline is a deterministic function of the listing
and the fetched bodies — two runs against pointwise-equal inputs yield
tables with the same row count and the same column list. -/
theorem C8_rerun_deterministic (listing : Option (List S3Object))
    (f1 f2 : String → Record) (hf : ∀ k, f1 k = f2 k) :
    (loaderRun listing f1).rows.length = (loaderRun listing f2).rows.length ∧
    dfColumns (loaderRun listing f1).rows
        = dfColumns (loaderRun listing f2).rows := by
  have hfe : f1 = f2 := funext hf
  subst hfe
  exact ⟨rfl, rfl⟩

/-- Claim C8, witnessed at a one-object listing. -/
theorem C8_rerun_deterministic_witness :
    (∀ k : String, (fun _ => ([] : Record)) k = (fun _ => ([] : Record)) k) ∧
    (loaderRun (some [⟨"results/a.json", "t1"⟩]) (fun _ => [])).rows.length
      = (loaderRun (some [⟨"results/a.json", "t1"⟩]) (fun _ => [])).rows.length :=
  ⟨fun _ => rfl,
   (C8_rerun_deterministic (some [⟨"results/a.json", "t1"⟩])
      (fun _ => []) (fun _ => []) (fun _ => rfl)).1⟩

/-- Auxiliary: the local writes of the Downloader loop, as
`(local path, source key)` pairs. -/
theorem writesOf_downloaderLoop (objs : List S3Object) :
    writesOf (downloaderLoop objs)
      = (objs.filter (fun o => !strEndsWith o.key "/")).map
          (fun o => (localPath o.key, o.key)) := by
  induction objs with
  | nil => rfl
  | cons o rest ih =>
    cases h : strEndsWith o.key "/" <;>
      simp [downloaderLoop, h, List.filter_cons, writesOf,
        List.filterMap_cons] at ih ⊢ <;>
      exact ih

/-- Claim C9: local filenames are key basenames, so distinct non-folder keys
with equal basenames map to the same local path; the later download
overwrites the earlier one; and the number of distinct local paths
written is at most the number of non-folder listed objects — on the
two-key collision listing it is strictly smaller (1 path for 2
objects). -/
theorem C9_basename_collision_overwrites :
    (∀ k1 k2 : String, strEndsWith k1 "/" = false → strEndsWith k2 "/" = false →
        k1 ≠ k2 → basename k1 = basename k2 → localPath k1 = localPath k2) ∧
    (∀ objs : List S3Object,
        ((writesOf (downloaderRun (some objs)).effects).map Prod.fst).dedup.length
          ≤ (objs.filter (fun o => !strEndsWith o.key "/")).length) ∧
    (∀ getBytes : String → String,
        finalFS getBytes
          (writesOf (downloaderRun
            (some [⟨"results/x/a.json", "t1"⟩, ⟨"results/y/a.json", "t2"⟩])).effects)
          (fun _ => none) (localPath "results/x/a.json")
          = some (getBytes "results/y/a.json")) ∧
    ((writesOf (downloaderRun
        (some [⟨"results/x/a.json", "t1"⟩, ⟨"results/y/a.json", "t2"⟩])).effects).map
        Prod.fst).dedup.length = 1 ∧
    ([(⟨"results/x/a.json", "t1"⟩ : S3Object), ⟨"results/y/a.json", "t2"⟩].filter
        (fun o => !strEndsWith o.key "/")).length = 2 := by
  refine ⟨?_, ?_, ?_, by decide, by decide⟩
  · intro k1 k2 _ _ _ hbase
    unfold localPath
    rw [hbase]
  · intro objs
    have hwrites : writesOf (downloaderRun (some objs)).effects
        = (objs.filter (fun o => !strEndsWith o.key "/")).map
            (fun o => (localPath o.key, o.key)) := by
      show writesOf (Effect.mkdir LOCAL_OUTPUT_DIR ::
          Effect.listObjects BUCKET_NAME S3_PREFIX_VAL :: downloaderLoop objs) = _
      rw [← writesOf_downloaderLoop]
      rfl
    calc ((writesOf (downloaderRun (some objs)).effects).map Prod.fst).dedup.length
        ≤ ((writesOf (downloaderRun (some objs)).effects).map Prod.fst).length :=
          (List.dedup_sublist _).length_le
      _ = (objs.filter (fun o => !strEndsWith o.key "/")).length := by
          rw [hwrites, List.map_map, List.length_map]
  · intro getBytes
    rfl

/-- Claim C9, witnessed at the colliding pair of keys. -/
theorem C9_basename_collision_overwrites_witness :
    strEndsWith "results/x/a.json" "/" = false ∧
    strEndsWith "results/y/a.json" "/" = false ∧
    ("results/x/a.json" : String) ≠ "results/y/a.json" ∧
    basename "results/x/a.json" = basename "results/y/a.json" ∧
    localPath "results/x/a.json" = localPath "results/y/a.json" :=
  ⟨by decide, by decide, by decide, by decide,
   C9_basename_collision_overwrites.1 "results/x/a.json" "results/y/a.json"
     (by decide) (by decide) (by decide) (by decide)⟩
